import Mathlib

/-
Verification of the Ouroboros repository: the OllamaAgent adapter
(ollama_agent.py) and the Whisper transcription CLI
(scripts/whisper_transcribe.py), shallowly embedded in Lean 4.
-/

/-- Embedding of the Python runtime values that can reach the adapter:
strings, ints, bools, None, lists, tuples, dicts with string keys, and
objects carrying named attributes (class name plus attribute table). -/
inductive PyVal where
  | str (s : String)
  | int (n : Int)
  | bool (b : Bool)
  | pynone
  | list (xs : List PyVal)
  | tuple (xs : List PyVal)
  | dict (fields : List (String × PyVal))
  | obj (cls : String) (attrs : List (String × PyVal))
deriving Repr

/-- Python repr of one character inside a single-quoted string literal
(backslash-escapes for backslash, quote and common control characters). -/
def pyReprChar (c : Char) : String :=
  if c = '\\' then "\\\\"
  else if c = '\x27' then "\\\x27"
  else if c = '\n' then "\\n"
  else if c = '\r' then "\\r"
  else if c = '\t' then "\\t"
  else String.singleton c

/-- Python repr of a string: single-quoted with escaping.  (CPython switches
to double quotes when the string contains a single quote and no double
quote; that corner is not modelled and no theorem below depends on it.) -/
def pyReprStr (s : String) : String :=
  "\x27" ++ String.join (s.toList.map pyReprChar) ++ "\x27"

mutual

/-- Python repr of an embedded value.  For objects the CPython output embeds
a memory address; the address is elided here and no theorem depends on it. -/
def pyRepr : PyVal → String
  | .str s => pyReprStr s
  | .int n => toString n
  | .bool b => if b then "True" else "False"
  | .pynone => "None"
  | .list xs => "[" ++ pyReprSeq xs ++ "]"
  | .tuple xs =>
    match xs with
    | [x] => "(" ++ pyRepr x ++ ",)"
    | ys => "(" ++ pyReprSeq ys ++ ")"
  | .dict fs => "\x7b" ++ pyReprFields fs ++ "\x7d"
  | .obj cls _ => "<" ++ cls ++ " object>"

/-- Comma-separated reprs of the elements of a sequence. -/
def pyReprSeq : List PyVal → String
  | [] => ""
  | [x] => pyRepr x
  | x :: xs => pyRepr x ++ ", " ++ pyReprSeq xs

/-- Comma-separated key-colon-value reprs of the entries of a dict. -/
def pyReprFields : List (String × PyVal) → String
  | [] => ""
  | [(k, v)] => pyReprStr k ++ ": " ++ pyRepr v
  | (k, v) :: fs => pyReprStr k ++ ": " ++ pyRepr v ++ ", " ++ pyReprFields fs

end

/-- Python str() of an embedded value: the string itself for strings, repr
for everything else. -/
def pyStr : PyVal → String
  | .str s => s
  | v => pyRepr v

/-- Attribute lookup on an attribute table (getattr on the embedded objects). -/
def attrLookup (attrs : List (String × PyVal)) (name : String) : Option PyVal :=
  attrs.lookup name

/-- One element step of the message-formatting loop of OllamaAgent.call
(ollama_agent.py lines 44-48): a dict element is appended verbatim
(isinstance(msg, dict) is checked first, with no key inspection); otherwise
an element exposing both a role and a content attribute contributes a fresh
role/content dict; every other element contributes nothing. -/
def formatOne : PyVal → Option PyVal
  | .dict fs => some (.dict fs)
  | .obj _ attrs =>
    match attrLookup attrs "role", attrLookup attrs "content" with
    | some r, some c => some (.dict [("role", r), ("content", c)])
    | _, _ => none
  | _ => none

/-- Does the value expose both role and content as named attributes
(hasattr(msg, role) and hasattr(msg, content) in the source)?  Only the
embedded objects carry such attributes. -/
def exposesRoleContent : PyVal → Bool
  | .obj _ attrs => (attrLookup attrs "role").isSome && (attrLookup attrs "content").isSome
  | _ => false

/-- Is the value a dict (isinstance(msg, dict))? -/
def isDictVal : PyVal → Bool
  | .dict _ => true
  | _ => false

/-- Is the value a str (isinstance(messages, str))? -/
def isStrVal : PyVal → Bool
  | .str _ => true
  | _ => false

/-- The message normalizer of OllamaAgent.call (ollama_agent.py lines
42-53): a list payload is mapped elementwise through formatOne; a str
payload becomes a single user message; anything else yields no formatted
messages; and when zero messages were produced the fallback is a single
user message wrapping str(messages). -/
def normalizeMessages (messages : PyVal) : List PyVal :=
  let formatted_messages : List PyVal :=
    match messages with
    | .list msgs => msgs.filterMap formatOne
    | .str s => [.dict [("role", .str "user"), ("content", .str s)]]
    | _ => []
  if formatted_messages.isEmpty then
    [.dict [("role", .str "user"), ("content", .str (pyStr messages))]]
  else
    formatted_messages

/-- Configuration of the openai.OpenAI client created in OllamaAgent.init
(ollama_agent.py lines 29-32): a base URL and an API key. -/
structure OpenAIClientConfig where
  base_url : String
  api_key : String
deriving Repr, DecidableEq

/-- State of an OllamaAgent instance after construction (ollama_agent.py
lines 20-32): the configured model and host, the private metta handle (set
to None) and unwrap flag (set to True), and the backend client handle. -/
structure OllamaAgent where
  model : String
  host : String
  metta : Option Unit
  unwrap : Bool
  client : OpenAIClientConfig
deriving Repr, DecidableEq

/-- Default model argument of OllamaAgent.init. -/
def ollamaDefaultModel : String := "llama3"

/-- Default host argument of OllamaAgent.init. -/
def ollamaDefaultHost : String := "http://host.docker.internal:11434"

/-- OllamaAgent.init (ollama_agent.py lines 20-32).  The openai argument
embeds the module-level openai binding, which is None when the import at
the top of the file failed; in that case construction raises RuntimeError
(embedded as Except.error) before any client is created.  Otherwise the
instance is assembled with a client pointed at host/v1 with the placeholder
key. -/
def OllamaAgent.init (openai : Option Unit) (model host : String) :
    Except String OllamaAgent :=
  match openai with
  | none => .error "openai library is required. pip install openai"
  | some _ =>
    .ok { model := model, host := host, metta := none, unwrap := true,
          client := { base_url := host ++ "/v1", api_key := "ollama" } }

/-- A chat message as carried in a backend response choice. -/
structure ChatMessage where
  role : String
  content : String
deriving Repr, DecidableEq

/-- One choice of a backend chat-completion response. -/
structure Choice where
  message : ChatMessage
deriving Repr, DecidableEq

/-- A backend chat-completion response: a list of choices. -/
structure ChatResponse where
  choices : List Choice
deriving Repr, DecidableEq

/-- The request OllamaAgent.call hands to
client.chat.completions.create (ollama_agent.py lines 55-59): the
configured model, the formatted messages, and temperature 0.7. -/
structure ChatRequest where
  model : String
  messages : List PyVal
  temperature : ℚ

/-- The result OllamaAgent.call hands back to the host runtime: either the
first choice message of the backend response, or the string built by the
except handler. -/
inductive DispatchResult where
  | msg (m : ChatMessage)
  | errStr (s : String)
deriving Repr, DecidableEq

/-- The request OllamaAgent.call builds for the backend. -/
def OllamaAgent.requestOf (self : OllamaAgent) (messages : PyVal) : ChatRequest :=
  { model := self.model, messages := normalizeMessages messages, temperature := 0.7 }

/-- OllamaAgent.call (ollama_agent.py lines 34-62).  The backend is an
oracle from requests to either a response or a raised exception (embedded
as Except.error with the exception text).  The second component of the
result is the trace of requests issued to the backend; the third is the
instance state after the call (the body never assigns to self, so the
incoming state is returned).  A response with no choices makes
response.choices[0] raise IndexError, which the except handler also
catches.  The functions parameter is accepted and never read, as in the
source. -/
def OllamaAgent.call (self : OllamaAgent)
    (client : ChatRequest → Except String ChatResponse)
    (messages : PyVal) (functions : List PyVal) :
    DispatchResult × List ChatRequest × OllamaAgent :=
  let req := self.requestOf messages
  match client req with
  | .ok response =>
    match response.choices with
    | choice :: _ => (.msg choice.message, [req], self)
    | [] => (.errStr ("Error: " ++ "list index out of range"), [req], self)
  | .error e => (.errStr ("Error: " ++ e), [req], self)

/-- Parsed command-line arguments of whisper_transcribe.py (lines 15-23).
Optional flags that argparse defaults to None are embedded as Option. -/
structure Args where
  audio_file : String
  model : String
  language : Option String
  task : String
  output : String
  initial_prompt : Option String
deriving Repr, DecidableEq

/-- One timed segment of a transcription result.  The source reads the
float fields seg[start] and seg[end]; floats are embedded opaquely by
their decimal rendering, which no theorem below inspects. -/
structure Segment where
  start : String
  «end» : String
  text : String
deriving Repr, DecidableEq

/-- The result dict returned by model.transcribe: full text, optionally a
detected language (result.get falls back when absent), and the segments. -/
structure WhisperResult where
  text : String
  language : Option String
  segments : List Segment
deriving Repr, DecidableEq

/-- The options dict built in whisper_transcribe.py lines 36-45. -/
structure TranscribeOptions where
  task : String
  verbose : Bool
  language : Option String
  initial_prompt : Option String
deriving Repr, DecidableEq

/-- Builds the options dict of whisper_transcribe.py lines 36-45: task and
verbose always; language and initial_prompt only when the argument is
truthy (None and the empty string are falsy in Python). -/
def optionsOf (args : Args) : TranscribeOptions :=
  { task := args.task
    verbose := false
    language :=
      match args.language with
      | some l => if l = "" then none else some l
      | none => none
    initial_prompt :=
      match args.initial_prompt with
      | some p => if p = "" then none else some p
      | none => none }

/-- JSON escaping of one character (backslash-escapes for backslash, quote
and common control characters), as json.dumps performs inside strings. -/
def jsonEscapeChar (c : Char) : String :=
  if c = '\\' then "\\\\"
  else if c = '"' then "\\\""
  else if c = '\n' then "\\n"
  else if c = '\r' then "\\r"
  else if c = '\t' then "\\t"
  else String.singleton c

/-- JSON rendering of a string value. -/
def jsonStr (s : String) : String :=
  "\"" ++ String.join (s.toList.map jsonEscapeChar) ++ "\""

/-- json.dumps of the one-key error object printed by the CLI on failure. -/
def jsonErrorObj (msg : String) : String :=
  "\x7b" ++ jsonStr "error" ++ ": " ++ jsonStr msg ++ "\x7d"

/-- JSON rendering of one segment of the success output
(whisper_transcribe.py lines 53-59): start and end are numbers (their
decimal rendering emitted raw), the text is stripped. -/
def jsonSegment (seg : Segment) : String :=
  "\x7b" ++ jsonStr "start" ++ ": " ++ seg.start ++ ", "
    ++ jsonStr "end" ++ ": " ++ seg.«end» ++ ", "
    ++ jsonStr "text" ++ ": " ++ jsonStr seg.text.trim ++ "\x7d"

/-- JSON rendering of the success output object of whisper_transcribe.py
lines 49-61: stripped full text, language with the unknown fallback, and
the segment list. -/
def jsonOutput (result : WhisperResult) : String :=
  "\x7b" ++ jsonStr "text" ++ ": " ++ jsonStr result.text.trim ++ ", "
    ++ jsonStr "language" ++ ": " ++ jsonStr (result.language.getD "unknown") ++ ", "
    ++ jsonStr "segments" ++ ": ["
    ++ String.intercalate ", " (result.segments.map jsonSegment) ++ "]\x7d"

/-- One line printed by the CLI, tagged by stream. -/
inductive Emission where
  | out (s : String)
  | err (s : String)
deriving Repr, DecidableEq

/-- main of whisper_transcribe.py (lines 14-72), after argument parsing.
whisperAvailable embeds whether import whisper succeeds; when it fails the
CLI prints the JSON error object to stderr — in every output mode — and
exits 1.  transcribeRun embeds whisper.load_model followed by
model.transcribe (model size, audio path, options); any exception from
either lands in the same except handler, which prints the JSON error
object to stdout in json mode or an Error: line to stderr in text mode,
and exits 1.  On success the CLI prints the JSON output object or the
stripped text to stdout and exits 0 (falling off main). -/
def cliMain (whisperAvailable : Bool)
    (transcribeRun : String → String → TranscribeOptions → Except String WhisperResult)
    (args : Args) : List Emission × Nat :=
  if whisperAvailable = false then
    ([.err (jsonErrorObj "whisper not installed. Run: pip install openai-whisper")], 1)
  else
    match transcribeRun args.model args.audio_file (optionsOf args) with
    | .ok result =>
      if args.output = "json" then
        ([.out (jsonOutput result)], 0)
      else
        ([.out result.text.trim], 0)
    | .error e =>
      if args.output = "json" then
        ([.out (jsonErrorObj e)], 1)
      else
        ([.err ("Error: " ++ e)], 1)

/-- A concrete agent instance used by the witnesses below. -/
def wAgent : OllamaAgent :=
  { model := "llama3", host := "http://localhost:11434", metta := none,
    unwrap := true,
    client := { base_url := "http://localhost:11434/v1", api_key := "ollama" } }

/-- A concrete backend reply message used by the witnesses below. -/
def wReply : ChatMessage := { role := "assistant", content := "I am fine" }

/-- A backend oracle answering every request with one choice. -/
def okClient : ChatRequest → Except String ChatResponse :=
  fun _ => .ok { choices := [{ message := wReply }] }

/-- A backend oracle raising on every request. -/
def failingClient : ChatRequest → Except String ChatResponse :=
  fun _ => .error "Connection refused"

/-- A valid role/content record used in counterexamples and witnesses. -/
def goodDict : PyVal :=
  PyVal.dict [("role", PyVal.str "user"), ("content", PyVal.str "hi")]

/-- An object exposing role and content as attributes, used in witnesses. -/
def goodObj : PyVal :=
  PyVal.obj "ChatCompletionMessage"
    [("role", PyVal.str "assistant"), ("content", PyVal.str "yo")]

/-- A role/content record with role assistant, used in the counterexample
for claim C4. -/
def assistantDict : PyVal :=
  PyVal.dict [("role", PyVal.str "assistant"), ("content", PyVal.str "Be terse")]

/-- Is the value a valid role/content record in the sense of the spec: a
dict containing both a role and a content key, or an object exposing both
as attributes? -/
def isValidRecord : PyVal → Bool
  | .dict fs => (fs.lookup "role").isSome && (fs.lookup "content").isSome
  | v => exposesRoleContent v

/-- The message a valid record contributes: a dict is kept verbatim (extra
keys included); an attribute object yields a fresh dict of its role and
content attributes. -/
def recordMessage : PyVal → PyVal
  | .dict fs => .dict fs
  | .obj _ attrs =>
    .dict [("role", (attrLookup attrs "role").getD .pynone),
           ("content", (attrLookup attrs "content").getD .pynone)]
  | v => v

/-- The message printed by the CLI when import whisper fails. -/
def whisperMissingMsg : String :=
  "whisper not installed. Run: pip install openai-whisper"

/-- Concrete CLI arguments selecting text output. -/
def textArgs : Args :=
  { audio_file := "audio.wav", model := "base", language := none,
    task := "transcribe", output := "text", initial_prompt := none }

/-- Concrete CLI arguments selecting json output. -/
def jsonArgs : Args :=
  { audio_file := "audio.wav", model := "base", language := none,
    task := "transcribe", output := "json", initial_prompt := none }

/-- A transcription oracle raising on every input (an unreadable file). -/
def failRun : String → String → TranscribeOptions → Except String WhisperResult :=
  fun _ _ _ => .error "No such file or directory: audio.wav"

/-- Claim C1: whenever the backend call raises, OllamaAgent.call does not
propagate the exception; it returns the string Error: followed by the
exception text, so the result is a string containing the word Error. -/
theorem ollama_call_backend_failure_contained
    (a : OllamaAgent) (client : ChatRequest → Except String ChatResponse)
    (messages : PyVal) (functions : List PyVal) (e : String)
    (h : client (a.requestOf messages) = .error e) :
    (a.call client messages functions).1 = .errStr ("Error: " ++ e) ∧
    ∃ details, (a.call client messages functions).1 =
      .errStr ("Error: " ++ details) := by
  have hmain : (a.call client messages functions).1 = .errStr ("Error: " ++ e) := by
    simp [OllamaAgent.call, h]
  exact ⟨hmain, e, hmain⟩

/-- Witness for C1 at a concrete agent, payload and failing backend. -/
theorem ollama_call_backend_failure_contained_witness :
    (wAgent.call failingClient (PyVal.str "hi") []).1 =
      DispatchResult.errStr ("Error: " ++ "Connection refused") ∧
    ∃ details, (wAgent.call failingClient (PyVal.str "hi") []).1 =
      DispatchResult.errStr ("Error: " ++ details) :=
  ollama_call_backend_failure_contained wAgent failingClient
    (PyVal.str "hi") [] "Connection refused" rfl

/-- Claim C5: a str payload normalizes to exactly one message with role
user and content equal to that text. -/
theorem normalize_single_text (s : String) :
    normalizeMessages (PyVal.str s) =
      [PyVal.dict [("role", PyVal.str "user"), ("content", PyVal.str s)]] := rfl

/-- Claim C6: when the backend call succeeds with a nonempty choice list,
OllamaAgent.call issues exactly one request — carrying the configured
model, the normalized messages and temperature 0.7 — and returns the first
choice message verbatim, with the instance state unchanged. -/
theorem ollama_call_success_dispatch
    (a : OllamaAgent) (client : ChatRequest → Except String ChatResponse)
    (messages : PyVal) (functions : List PyVal)
    (response : ChatResponse) (choice : Choice) (rest : List Choice)
    (hclient : client (a.requestOf messages) = .ok response)
    (hchoices : response.choices = choice :: rest) :
    a.call client messages functions =
      (.msg choice.message, [a.requestOf messages], a) ∧
    (a.requestOf messages).model = a.model ∧
    (a.requestOf messages).messages = normalizeMessages messages ∧
    (a.requestOf messages).temperature = 0.7 := by
  refine ⟨?_, rfl, rfl, rfl⟩
  simp [OllamaAgent.call, hclient, hchoices]

/-- Witness for C6 at a concrete agent, payload and succeeding backend. -/
theorem ollama_call_success_dispatch_witness :
    wAgent.call okClient (PyVal.str "Hello") [] =
      (.msg wReply, [wAgent.requestOf (PyVal.str "Hello")], wAgent) ∧
    (wAgent.requestOf (PyVal.str "Hello")).model = wAgent.model ∧
    (wAgent.requestOf (PyVal.str "Hello")).messages =
      normalizeMessages (PyVal.str "Hello") ∧
    (wAgent.requestOf (PyVal.str "Hello")).temperature = 0.7 :=
  ollama_call_success_dispatch wAgent okClient (PyVal.str "Hello") []
    { choices := [{ message := wReply }] } { message := wReply } [] rfl rfl

/-- Claim C7: constructing an OllamaAgent while the openai binding is None
fails immediately with the RuntimeError text, and no instance is ever
produced — the fault cannot be deferred to a later call, since no agent
value exists to be called. -/
theorem ollama_init_fails_without_openai (model host : String) :
    OllamaAgent.init none model host =
      .error "openai library is required. pip install openai" ∧
    ∀ a : OllamaAgent, OllamaAgent.init none model host ≠ .ok a := by
  refine ⟨rfl, ?_⟩
  intro a h
  simp [OllamaAgent.init] at h

/-- Claim C9: OllamaAgent.call returns the instance state it received —
model, host and the client handle are identical before and after the call,
on the success path and on the error path alike. -/
theorem ollama_call_no_mutation
    (a : OllamaAgent) (client : ChatRequest → Except String ChatResponse)
    (messages : PyVal) (functions : List PyVal) :
    (a.call client messages functions).2.2 = a ∧
    (a.call client messages functions).2.2.model = a.model ∧
    (a.call client messages functions).2.2.host = a.host ∧
    (a.call client messages functions).2.2.client = a.client := by
  have hmain : (a.call client messages functions).2.2 = a := by
    cases hcl : client (a.requestOf messages) with
    | ok response =>
      cases hch : response.choices with
      | nil => simp [OllamaAgent.call, hcl, hch]
      | cons c cs => simp [OllamaAgent.call, hcl, hch]
    | error e => simp [OllamaAgent.call, hcl]
  exact ⟨hmain, by rw [hmain], by rw [hmain], by rw [hmain]⟩

/-- Claim C10: the functions parameter of OllamaAgent.call is never read;
two invocations differing only in it produce identical results, and in
particular the identical request trace (same normalized messages, same
backend request). -/
theorem ollama_call_functions_no_effect
    (a : OllamaAgent) (client : ChatRequest → Except String ChatResponse)
    (messages : PyVal) (fns1 fns2 : List PyVal) :
    a.call client messages fns1 = a.call client messages fns2 ∧
    (a.call client messages fns1).2.1 = (a.call client messages fns2).2.1 :=
  ⟨rfl, rfl⟩

/-- Helper: an element that is not a dict and does not expose role and
content attributes contributes nothing to the formatted messages. -/
theorem formatOne_eq_none (msg : PyVal)
    (h1 : isDictVal msg = false) (h2 : exposesRoleContent msg = false) :
    formatOne msg = none := by
  cases msg with
  | dict fs => simp [isDictVal] at h1
  | obj cls attrs =>
    cases hr : attrLookup attrs "role" with
    | none => simp [formatOne, hr]
    | some r =>
      cases hc : attrLookup attrs "content" with
      | none => simp [formatOne, hr, hc]
      | some c => simp [exposesRoleContent, hr, hc] at h2
  | str s => rfl
  | int n => rfl
  | bool b => rfl
  | pynone => rfl
  | list xs => rfl
  | tuple xs => rfl

/-- Counterexample to claim C2: a dict element with neither a role nor a
content key is appended verbatim by the normalizer, because
isinstance(msg, dict) is tested before any key inspection. -/
theorem keyless_dict_appended :
    normalizeMessages (PyVal.list [PyVal.dict []]) = [PyVal.dict []] := rfl

/-- Claim C2 amended: a list element that is not a dict and does not
expose both role and content as attributes contributes no message — it can
be deleted without changing the formatted sequence, and (when the
remaining elements still format to a nonempty sequence) without changing
the normalizer's output.  Dict elements, by contrast, are appended
whatever their keys. -/
theorem normalize_skips_unrecognized
    (pre post : List PyVal) (msg : PyVal)
    (h1 : isDictVal msg = false)
    (h2 : exposesRoleContent msg = false)
    (h3 : (pre ++ post).filterMap formatOne ≠ []) :
    formatOne msg = none ∧
    (pre ++ msg :: post).filterMap formatOne = (pre ++ post).filterMap formatOne ∧
    normalizeMessages (PyVal.list (pre ++ msg :: post)) =
      normalizeMessages (PyVal.list (pre ++ post)) := by
  have hskip : formatOne msg = none := formatOne_eq_none msg h1 h2
  have hfm : (pre ++ msg :: post).filterMap formatOne =
      (pre ++ post).filterMap formatOne := by
    simp [List.filterMap_append, List.filterMap_cons, hskip]
  have hne : ((pre ++ post).filterMap formatOne).isEmpty = false := by
    cases hc : (pre ++ post).filterMap formatOne with
    | nil => exact absurd hc h3
    | cons a l => rfl
  refine ⟨hskip, hfm, ?_⟩
  have e1 : normalizeMessages (PyVal.list (pre ++ msg :: post)) =
      if ((pre ++ msg :: post).filterMap formatOne).isEmpty then
        [PyVal.dict [("role", PyVal.str "user"),
                     ("content", PyVal.str (pyStr (PyVal.list (pre ++ msg :: post))))]]
      else (pre ++ msg :: post).filterMap formatOne := rfl
  have e2 : normalizeMessages (PyVal.list (pre ++ post)) =
      if ((pre ++ post).filterMap formatOne).isEmpty then
        [PyVal.dict [("role", PyVal.str "user"),
                     ("content", PyVal.str (pyStr (PyVal.list (pre ++ post))))]]
      else (pre ++ post).filterMap formatOne := rfl
  rw [e1, e2, hfm, hne]
  simp

/-- Witness for the amended C2: an int element between valid records is
dropped. -/
theorem normalize_skips_unrecognized_witness :
    formatOne (PyVal.int 3) = none ∧
    ([goodDict] ++ PyVal.int 3 :: []).filterMap formatOne =
      ([goodDict] ++ []).filterMap formatOne ∧
    normalizeMessages (PyVal.list ([goodDict] ++ PyVal.int 3 :: [])) =
      normalizeMessages (PyVal.list ([goodDict] ++ [])) :=
  normalize_skips_unrecognized [goodDict] [] (PyVal.int 3) rfl rfl
    (by intro h; simp [goodDict, List.filterMap_cons, formatOne] at h)

/-- Counterexample to claim C3: a list containing only a keyless dict has
no element exposing role and content, yet the normalizer does not fall
back to the single user message wrapping str(payload) — the keyless dict
itself is the output. -/
theorem fallback_bypassed_by_keyless_dict :
    normalizeMessages (PyVal.list [PyVal.dict []]) ≠
      [PyVal.dict [("role", PyVal.str "user"),
                   ("content", PyVal.str (pyStr (PyVal.list [PyVal.dict []])))]] := by
  intro h
  have h2 : normalizeMessages (PyVal.list [PyVal.dict []]) = [PyVal.dict []] := rfl
  have h3 := h2.symm.trans h
  simp at h3

/-- Claim C3 amended: a payload that is not a str and whose formatted
sequence is empty (it is not a list, or is a list none of whose elements
is a dict or exposes role and content attributes) normalizes to exactly
one message with role user and content str(payload).  The normalizer is a
total function, so it never raises. -/
theorem normalize_fallback_shape (v : PyVal)
    (h1 : isStrVal v = false)
    (h2 : ∀ msgs, v = PyVal.list msgs → msgs.filterMap formatOne = []) :
    normalizeMessages v =
      [PyVal.dict [("role", PyVal.str "user"),
                   ("content", PyVal.str (pyStr v))]] := by
  cases v with
  | str s => simp [isStrVal] at h1
  | list msgs => simp [normalizeMessages, h2 msgs rfl]
  | int n => rfl
  | bool b => rfl
  | pynone => rfl
  | tuple xs => rfl
  | dict fs => rfl
  | obj cls attrs => rfl

/-- Witness for the amended C3: a number payload becomes the single
fallback message. -/
theorem normalize_fallback_shape_witness :
    normalizeMessages (PyVal.int 7) =
      [PyVal.dict [("role", PyVal.str "user"),
                   ("content", PyVal.str (pyStr (PyVal.int 7)))]] :=
  normalize_fallback_shape (PyVal.int 7) rfl (fun _ h => PyVal.noConfusion h)

/-- Helper: a valid role/content record contributes exactly its record
message to the formatted sequence. -/
theorem formatOne_valid (v : PyVal) (h : isValidRecord v = true) :
    formatOne v = some (recordMessage v) := by
  cases v with
  | dict fs => rfl
  | obj cls attrs =>
    cases hr : attrLookup attrs "role" with
    | none => simp [isValidRecord, exposesRoleContent, hr] at h
    | some r =>
      cases hc : attrLookup attrs "content" with
      | none => simp [isValidRecord, exposesRoleContent, hr, hc] at h
      | some c => simp [formatOne, recordMessage, hr, hc]
  | str s => simp [isValidRecord, exposesRoleContent] at h
  | int n => simp [isValidRecord, exposesRoleContent] at h
  | bool b => simp [isValidRecord, exposesRoleContent] at h
  | pynone => simp [isValidRecord, exposesRoleContent] at h
  | list xs => simp [isValidRecord, exposesRoleContent] at h
  | tuple xs => simp [isValidRecord, exposesRoleContent] at h

/-- Helper: over a list of valid records, formatting is exactly the
elementwise record message. -/
theorem filterMap_formatOne_eq_map (msgs : List PyVal)
    (hval : ∀ msg ∈ msgs, isValidRecord msg = true) :
    msgs.filterMap formatOne = msgs.map recordMessage := by
  induction msgs with
  | nil => rfl
  | cons m ms ih =>
    have hm := formatOne_valid m (hval m (by simp))
    have hms := ih (fun x hx => hval x (by simp [hx]))
    simp [List.filterMap_cons, hm, hms]

/-- Counterexample to claim C4: a tuple — an ordered sequence that is not
a Python list — of valid role/content records is not normalized
elementwise; isinstance(messages, list) fails and the whole tuple is
wrapped in the single fallback user message. -/
theorem tuple_sequence_not_normalized :
    normalizeMessages (PyVal.tuple [assistantDict]) ≠ [assistantDict] := by
  intro h
  have h2 : normalizeMessages (PyVal.tuple [assistantDict]) =
      [PyVal.dict [("role", PyVal.str "user"),
                   ("content", PyVal.str (pyStr (PyVal.tuple [assistantDict])))]] := rfl
  have h3 := h2.symm.trans h
  simp [assistantDict] at h3

/-- Claim C4 amended: for a nonempty Python list whose elements are all
valid role/content records — dicts containing both keys, or objects
exposing both attributes — normalization yields one message per element in
order: dicts verbatim, and for attribute objects a dict of the role and
content values copied verbatim. -/
theorem normalize_list_of_records (msgs : List PyVal)
    (hne : msgs ≠ [])
    (hval : ∀ msg ∈ msgs, isValidRecord msg = true) :
    normalizeMessages (PyVal.list msgs) = msgs.map recordMessage := by
  have hmap := filterMap_formatOne_eq_map msgs hval
  have hempty : (msgs.filterMap formatOne).isEmpty = false := by
    rw [hmap]
    cases msgs with
    | nil => exact absurd rfl hne
    | cons m ms => rfl
  have e1 : normalizeMessages (PyVal.list msgs) =
      if (msgs.filterMap formatOne).isEmpty then
        [PyVal.dict [("role", PyVal.str "user"),
                     ("content", PyVal.str (pyStr (PyVal.list msgs)))]]
      else msgs.filterMap formatOne := rfl
  rw [e1, hempty, hmap]
  simp

/-- Witness for the amended C4: a two-element list of a dict record and an
attribute-object record normalizes elementwise in order. -/
theorem normalize_list_of_records_witness :
    normalizeMessages (PyVal.list [goodDict, goodObj]) =
      [goodDict, goodObj].map recordMessage :=
  normalize_list_of_records [goodDict, goodObj] (by simp)
    (by intro msg hm; simp [goodDict, goodObj] at hm; rcases hm with h | h <;> subst h <;> rfl)

/-- Counterexample to claim C8: when the whisper import fails while text
output is selected, the CLI prints the JSON error object (to stderr), not
a plain Error: line — the import-failure path ignores the selected output
mode. -/
theorem whisper_import_error_json_in_text_mode :
    textArgs.output = "text" ∧
    cliMain false failRun textArgs =
      ([Emission.err (jsonErrorObj whisperMissingMsg)], 1) ∧
    jsonErrorObj whisperMissingMsg ≠ "Error: " ++ whisperMissingMsg := by
  refine ⟨rfl, rfl, ?_⟩
  decide

/-- Claim C8 amended: every CLI failure exits with status 1.  A failure
raised while loading the model or transcribing is encoded per the selected
output mode — the JSON error object on stdout in json mode, an Error: line
on stderr in text mode — but a missing speech backend is always reported
as the JSON error object on stderr, whatever the output mode. -/
theorem cli_failure_encoding (args : Args)
    (run : String → String → TranscribeOptions → Except String WhisperResult)
    (e : String)
    (hrun : run args.model args.audio_file (optionsOf args) = .error e) :
    cliMain true run args =
      (if args.output = "json" then ([Emission.out (jsonErrorObj e)], 1)
       else ([Emission.err ("Error: " ++ e)], 1)) ∧
    cliMain false run args =
      ([Emission.err (jsonErrorObj whisperMissingMsg)], 1) ∧
    (cliMain true run args).2 = 1 ∧
    (cliMain false run args).2 = 1 := by
  have h1 : cliMain true run args =
      (if args.output = "json" then ([Emission.out (jsonErrorObj e)], 1)
       else ([Emission.err ("Error: " ++ e)], 1)) := by
    simp [cliMain, hrun]
  refine ⟨h1, rfl, ?_, rfl⟩
  rw [h1]
  by_cases h : args.output = "json" <;> simp [h]

/-- Witness for the amended C8 at a concrete unreadable-file failure in
text mode. -/
theorem cli_failure_encoding_witness :
    cliMain true failRun textArgs =
      (if textArgs.output = "json"
       then ([Emission.out (jsonErrorObj "No such file or directory: audio.wav")], 1)
       else ([Emission.err ("Error: " ++ "No such file or directory: audio.wav")], 1)) ∧
    cliMain false failRun textArgs =
      ([Emission.err (jsonErrorObj whisperMissingMsg)], 1) ∧
    (cliMain true failRun textArgs).2 = 1 ∧
    (cliMain false failRun textArgs).2 = 1 :=
  cli_failure_encoding textArgs failRun "No such file or directory: audio.wav" rfl
